import Mathlib

/-!
Shallow embedding of `serial-modbus.c` (Linux character-device module for a
Modbus RTU skeleton) and verification of its lifecycle and dispatch layer.

The file has two parts, mirroring the two components of the driver:

* the per-descriptor dispatch handlers `modbus_dev_open`, `modbus_dev_close`,
  `modbus_dev_ioctl`, `modbus_dev_read`, `modbus_dev_write`, modelled as pure
  functions over an explicit file-object state (the `private_data` field) with
  kernel allocation success passed in as an explicit oracle;

* the module lifecycle `modbus_dev_init` / `modbus_dev_exit`, modelled as
  explicit state transformers over the module's global state together with a
  trace of the kernel calls they issue, with the success/failure of each
  fallible kernel service (`alloc_chrdev_region`, `cdev_alloc`, `cdev_add`,
  `class_create`, `device_create`) supplied by an environment record.

Machine integers: `dev_t` values and sizes are `Nat`; error returns are `Int`
(negative errno convention). `MINOR` takes the low 20 bits of a `dev_t`.
-/

set_option autoImplicit false
set_option linter.unusedVariables false

/-- The errno value ENOMEM (out of memory); the driver returns `-ENOMEM`. -/
def ENOMEM : Int := 12

/-- `static const char DEVICE_NAME[] = "modbus_dev";` -/
def DEVICE_NAME : String := "modbus_dev"

/-- `static const char CLASS_NAME[] = "modbus_class";` -/
def CLASS_NAME : String := "modbus_class"

/-- `static const unsigned int firstOfMinorNum = 0;` -/
def firstOfMinorNum : Nat := 0

/-- `static const unsigned int countOfMinorNum = 1;` — range of contiguous
minor numbers requested by this driver. -/
def countOfMinorNum : Nat := 1

/-- `MINOR(dev)`: the low 20 bits of a `dev_t` (Linux `MINORBITS = 20`). -/
def MINOR (dev : Nat) : Nat := dev % 1048576

/-- `MAJOR(dev)`: the high bits of a `dev_t` above the 20 minor bits. -/
def MAJOR (dev : Nat) : Nat := dev / 1048576

/-- `struct private_data` — per-open-instance state kept in the file object's
private-data field. The source has the single field `int tempPlaceholder`. -/
structure private_data where
  tempPlaceholder : Int
deriving DecidableEq

/-- The part of `struct file` this driver touches: the private-data field,
`none` when no per-instance state is attached. -/
structure File where
  private_data : Option private_data
deriving DecidableEq

/-- Result of `modbus_dev_close`: the return value, the (unchanged) file
object, and the allocation passed to `kfree` (`none` when nothing is freed). -/
structure CloseResult where
  ret : Int
  file : File
  freed : Option private_data
deriving DecidableEq

/-- `modbus_dev_open`: allocate zero-initialized private data with `kzalloc`
(whose success is the explicit oracle `kzallocOk`) and attach it to the file
object; on allocation failure return `-ENOMEM` leaving the file unchanged. -/
def modbus_dev_open (kzallocOk : Bool) (file : File) : Int × File :=
  if kzallocOk then
    (0, { file with private_data := some { tempPlaceholder := 0 } })
  else
    (-ENOMEM, file)

/-- `modbus_dev_close`: fetch the attached private data; if absent return
`-ENOMEM` and free nothing; otherwise `kfree` it and return 0. The source
never writes to `file->private_data`, so the file object is unchanged. -/
def modbus_dev_close (file : File) : CloseResult :=
  match file.private_data with
  | none => { ret := -ENOMEM, file := file, freed := none }
  | some pd => { ret := 0, file := file, freed := some pd }

/-- `modbus_dev_ioctl`: fetch the attached private data; if absent return
`-ENOMEM`; otherwise log and return 0 for every `cmd` and `arg`. -/
def modbus_dev_ioctl (file : File) (cmd : Nat) (arg : Nat) : Int × File :=
  match file.private_data with
  | none => (-ENOMEM, file)
  | some _ => (0, file)

/-- `modbus_dev_read`: fetch the attached private data; if absent return
`-ENOMEM`; otherwise return 0 bytes read. The result carries the file object,
the user buffer and the position, none of which the source modifies. -/
def modbus_dev_read (file : File) (buf : List Nat) (lbuf : Nat) (ppos : Int) :
    Int × File × List Nat × Int :=
  match file.private_data with
  | none => (-ENOMEM, file, buf, ppos)
  | some _ => (0, file, buf, ppos)

/-- `modbus_dev_write`: fetch the attached private data; if absent return
`-ENOMEM`; otherwise return 0 bytes written, touching nothing. -/
def modbus_dev_write (file : File) (buf : List Nat) (lbuf : Nat) (ppos : Int) :
    Int × File × List Nat × Int :=
  match file.private_data with
  | none => (-ENOMEM, file, buf, ppos)
  | some _ => (0, file, buf, ppos)

/-- The kernel service calls issued by `modbus_dev_init` / `modbus_dev_exit`,
recorded in order as a trace. -/
inductive KCall where
  | alloc_chrdev_region
  | cdev_alloc
  | cdev_init
  | cdev_add
  | class_create
  | device_create
  | cdev_del
  | device_destroy
  | class_unregister
  | class_destroy
  | unregister_chrdev_region
deriving DecidableEq

/-- Module-global state: which kernel resources are currently held, the value
of the static global pointers the source keeps, and the assigned `dev_t`. -/
structure Sys where
  regionHeld : Bool
  regionStart : Nat
  regionCount : Nat
  cdevAllocated : Bool
  cdevAdded : Bool
  classHeld : Bool
  nodeHeld : Bool
  nodeName : Option String
  my_dev : Bool
  firstAssignedDevNum : Nat
deriving DecidableEq

/-- The module's state at load: all static pointers NULL, nothing held. -/
def initialSys : Sys :=
  { regionHeld := false, regionStart := 0, regionCount := 0,
    cdevAllocated := false, cdevAdded := false, classHeld := false,
    nodeHeld := false, nodeName := none, my_dev := false,
    firstAssignedDevNum := 0 }

/-- Environment for one run of `modbus_dev_init`: whether each fallible
kernel service succeeds, the error value each returns on failure, and the
`dev_t` handed out by `alloc_chrdev_region` on success. -/
structure Env where
  alloc_chrdev_region_ok : Bool
  cdev_alloc_ok : Bool
  cdev_add_ok : Bool
  class_create_ok : Bool
  device_create_ok : Bool
  alloc_chrdev_region_err : Int
  cdev_add_err : Int
  class_create_err : Int
  device_create_err : Int
  assignedDevNum : Nat

/-- The environment in which every kernel service succeeds. -/
def allOkEnv (e1 e2 e3 e4 : Int) (n : Nat) : Env :=
  { alloc_chrdev_region_ok := true, cdev_alloc_ok := true, cdev_add_ok := true,
    class_create_ok := true, device_create_ok := true,
    alloc_chrdev_region_err := e1, cdev_add_err := e2, class_create_err := e3,
    device_create_err := e4, assignedDevNum := n }

/-- `modbus_dev_init`, run from the module's initial global state: returns the
`int` result, the final global state, and the trace of kernel calls issued.
Each branch follows the source line by line; in particular on `cdev_alloc`
failure the source returns `-1` without unregistering the device region. -/
def modbus_dev_init (env : Env) : Int × Sys × List KCall :=
  let s0 := initialSys
  if env.alloc_chrdev_region_ok = false then
    (env.alloc_chrdev_region_err, s0, [KCall.alloc_chrdev_region])
  else
    let s1 := { s0 with regionHeld := true, regionStart := firstOfMinorNum,
                        regionCount := countOfMinorNum,
                        firstAssignedDevNum := env.assignedDevNum }
    if env.cdev_alloc_ok = false then
      (-1, s1, [KCall.alloc_chrdev_region, KCall.cdev_alloc])
    else
      let s2 := { s1 with cdevAllocated := true, my_dev := true }
      if env.cdev_add_ok = false then
        let s3 := { s2 with cdevAllocated := false }
        let s4 := { s3 with regionHeld := false }
        (env.cdev_add_err, s4,
          [KCall.alloc_chrdev_region, KCall.cdev_alloc, KCall.cdev_init,
           KCall.cdev_add, KCall.cdev_del, KCall.unregister_chrdev_region])
      else
        let s3 := { s2 with cdevAdded := true }
        if env.class_create_ok = false then
          let s4 := { s3 with cdevAllocated := false, cdevAdded := false }
          let s5 := { s4 with regionHeld := false }
          (env.class_create_err, s5,
            [KCall.alloc_chrdev_region, KCall.cdev_alloc, KCall.cdev_init,
             KCall.cdev_add, KCall.class_create, KCall.cdev_del,
             KCall.unregister_chrdev_region])
        else
          let s4 := { s3 with classHeld := true }
          if env.device_create_ok = false then
            let s5 := { s4 with classHeld := false }
            let s6 := { s5 with cdevAllocated := false, cdevAdded := false }
            let s7 := { s6 with regionHeld := false }
            (env.device_create_err, s7,
              [KCall.alloc_chrdev_region, KCall.cdev_alloc, KCall.cdev_init,
               KCall.cdev_add, KCall.class_create, KCall.device_create,
               KCall.class_destroy, KCall.cdev_del,
               KCall.unregister_chrdev_region])
          else
            let nm := some (DEVICE_NAME ++ toString (MINOR env.assignedDevNum))
            let s5 := { s4 with nodeHeld := true, nodeName := nm }
            (0, s5,
              [KCall.alloc_chrdev_region, KCall.cdev_alloc, KCall.cdev_init,
               KCall.cdev_add, KCall.class_create, KCall.device_create])

/-- `modbus_dev_exit`, run on a given global state: the resulting state and
the trace of kernel calls. Only `cdev_del` is guarded (`if (my_dev)`);
`device_destroy`, `class_unregister`, `class_destroy` and
`unregister_chrdev_region` are issued unconditionally, and the source never
resets the `my_dev` pointer. -/
def modbus_dev_exit (s : Sys) : Sys × List KCall :=
  let s1 := if s.my_dev then { s with cdevAllocated := false, cdevAdded := false } else s
  let t1 : List KCall := if s.my_dev then [KCall.cdev_del] else []
  let s2 := { s1 with nodeHeld := false }
  let s3 := { s2 with classHeld := false }
  let s4 := { s3 with regionHeld := false }
  (s4, t1 ++ [KCall.device_destroy, KCall.class_unregister, KCall.class_destroy,
              KCall.unregister_chrdev_region])

/-- Index of the first occurrence of a call in a trace (length if absent). -/
def callIndex (c : KCall) : List KCall → Nat
  | [] => 0
  | k :: rest => if k = c then 0 else callIndex c rest + 1

/-- C6: `modbus_dev_open` attaches fresh zero-initialized per-instance state
and returns 0 on allocation success; on allocation failure it returns
`-ENOMEM` and leaves the file object unchanged. -/
theorem open_allocates_zeroed_state_or_fails_cleanly : ∀ f : File,
    modbus_dev_open true f =
      (0, { private_data := some { tempPlaceholder := 0 } }) ∧
    modbus_dev_open false f = (-ENOMEM, f) :=
  fun _ => ⟨rfl, rfl⟩

/-- C5: each of close, ioctl, read and write, invoked on a file object with no
attached per-instance state, returns `-ENOMEM` and has no side effects: the
file object, user buffer and position are unchanged and nothing is freed. -/
theorem handlers_on_missing_state_fail_without_side_effects :
    ∀ (buf bufw : List Nat) (lbuf lbufw : Nat) (p pw : Int) (cmd arg : Nat),
    modbus_dev_close { private_data := none } =
      { ret := -ENOMEM, file := { private_data := none }, freed := none } ∧
    modbus_dev_ioctl { private_data := none } cmd arg =
      (-ENOMEM, { private_data := none }) ∧
    modbus_dev_read { private_data := none } buf lbuf p =
      (-ENOMEM, { private_data := none }, buf, p) ∧
    modbus_dev_write { private_data := none } bufw lbufw pw =
      (-ENOMEM, { private_data := none }, bufw, pw) :=
  fun _ _ _ _ _ _ _ _ => ⟨rfl, rfl, rfl, rfl⟩

/-- C7: with per-instance state attached, ioctl returns 0 for every command
and argument without mutating the state, and read and write return 0 bytes
transferred for every buffer, length and position. -/
theorem stub_handlers_succeed_with_state_attached :
    ∀ (pd : private_data) (cmd arg : Nat) (buf : List Nat) (lbuf : Nat) (p : Int),
    modbus_dev_ioctl { private_data := some pd } cmd arg =
      (0, { private_data := some pd }) ∧
    modbus_dev_read { private_data := some pd } buf lbuf p =
      (0, { private_data := some pd }, buf, p) ∧
    modbus_dev_write { private_data := some pd } buf lbuf p =
      (0, { private_data := some pd }, buf, p) :=
  fun _ _ _ _ _ _ => ⟨rfl, rfl, rfl⟩

/-- C10: with per-instance state attached, read and write leave the file
position, the user buffer and the attached state exactly as supplied. -/
theorem read_write_frame_preserved :
    ∀ (pd : private_data) (buf : List Nat) (lbuf : Nat) (p : Int),
    (modbus_dev_read { private_data := some pd } buf lbuf p).2 =
      ({ private_data := some pd }, buf, p) ∧
    (modbus_dev_write { private_data := some pd } buf lbuf p).2 =
      ({ private_data := some pd }, buf, p) :=
  fun _ _ _ _ => ⟨rfl, rfl⟩

/-- C9: the error value returned by open on allocation failure and by close,
ioctl, read and write on missing per-instance state is the same numeric value
`-ENOMEM` (= -12) in all five places. -/
theorem all_error_paths_return_same_enomem :
    ∀ (f : File) (buf : List Nat) (lbuf : Nat) (p : Int) (cmd arg : Nat),
    (modbus_dev_open false f).1 = -ENOMEM ∧
    (modbus_dev_close { private_data := none }).ret = -ENOMEM ∧
    (modbus_dev_ioctl { private_data := none } cmd arg).1 = -ENOMEM ∧
    (modbus_dev_read { private_data := none } buf lbuf p).1 = -ENOMEM ∧
    (modbus_dev_write { private_data := none } buf lbuf p).1 = -ENOMEM ∧
    ENOMEM = 12 :=
  fun _ _ _ _ _ _ => ⟨rfl, rfl, rfl, rfl, rfl, rfl⟩

/-- C4 counterexample: close on a file with attached state frees the state and
returns 0, but does not detach it — the private-data field still holds the
released allocation, so the claim's detachment conjunct is false. -/
theorem close_does_not_detach_counterexample :
    ¬ ((modbus_dev_close { private_data := some { tempPlaceholder := 0 } }).ret = 0 ∧
       (modbus_dev_close { private_data := some { tempPlaceholder := 0 } }).freed =
         some { tempPlaceholder := 0 } ∧
       (modbus_dev_close { private_data := some { tempPlaceholder := 0 } }).file.private_data ≠
         some { tempPlaceholder := 0 }) := by
  decide

/-- C4 amended: close on a file with attached state frees exactly that state
and returns 0, leaving the private-data field unchanged (still holding the
released allocation); with no state attached it returns `-ENOMEM` and frees
nothing. -/
theorem close_frees_state_without_detaching : ∀ pd : private_data,
    modbus_dev_close { private_data := some pd } =
      { ret := 0, file := { private_data := some pd }, freed := some pd } ∧
    modbus_dev_close { private_data := none } =
      { ret := -ENOMEM, file := { private_data := none }, freed := none } :=
  fun _ => ⟨rfl, rfl⟩

/-- The run of `modbus_dev_init` in which `cdev_alloc` returns NULL after
`alloc_chrdev_region` has succeeded (all other services would succeed). -/
def cdevAllocFailEnv : Env :=
  { alloc_chrdev_region_ok := true, cdev_alloc_ok := false, cdev_add_ok := true,
    class_create_ok := true, device_create_ok := true,
    alloc_chrdev_region_err := 0, cdev_add_err := 0, class_create_err := 0,
    device_create_err := 0, assignedDevNum := 0 }

/-- C1: evaluating the code at the failing input — when `cdev_alloc` fails
after the device region was acquired, init returns -1 but never calls
`unregister_chrdev_region`, so the device-number region remains held,
contradicting rollback completeness. -/
theorem init_leaks_region_on_cdev_alloc_failure :
    (modbus_dev_init cdevAllocFailEnv).1 = -1 ∧
    (modbus_dev_init cdevAllocFailEnv).2.1.regionHeld = true ∧
    KCall.unregister_chrdev_region ∉ (modbus_dev_init cdevAllocFailEnv).2.2 := by
  decide

/-- The module-global state after a fully successful `modbus_dev_init`. -/
def postInitSys : Sys := (modbus_dev_init (allOkEnv 0 0 0 0 0)).2.1

/-- C2 counterexample: after a fully successful init, the exit trace is not
the exact mirror of acquisition order — it does not release the device node
first; `cdev_del` comes first instead. -/
theorem exit_not_exact_mirror_counterexample :
    (modbus_dev_init (allOkEnv 0 0 0 0 0)).1 = 0 ∧
    (modbus_dev_exit postInitSys).2 ≠
      [KCall.device_destroy, KCall.class_unregister, KCall.class_destroy,
       KCall.cdev_del, KCall.unregister_chrdev_region] := by
  decide

/-- C2 amended: after a fully successful init, exit releases the dispatch
table registration first (`cdev_del`), then the device node
(`device_destroy`), then the device class (`class_unregister`,
`class_destroy`), then the device identity (`unregister_chrdev_region`),
after which no resource remains held. -/
theorem exit_release_order_after_successful_init :
    ∀ (e1 e2 e3 e4 : Int) (n : Nat),
    (modbus_dev_init (allOkEnv e1 e2 e3 e4 n)).1 = 0 ∧
    (modbus_dev_exit (modbus_dev_init (allOkEnv e1 e2 e3 e4 n)).2.1).2 =
      [KCall.cdev_del, KCall.device_destroy, KCall.class_unregister,
       KCall.class_destroy, KCall.unregister_chrdev_region] ∧
    (modbus_dev_exit (modbus_dev_init (allOkEnv e1 e2 e3 e4 n)).2.1).1.regionHeld = false ∧
    (modbus_dev_exit (modbus_dev_init (allOkEnv e1 e2 e3 e4 n)).2.1).1.cdevAllocated = false ∧
    (modbus_dev_exit (modbus_dev_init (allOkEnv e1 e2 e3 e4 n)).2.1).1.cdevAdded = false ∧
    (modbus_dev_exit (modbus_dev_init (allOkEnv e1 e2 e3 e4 n)).2.1).1.classHeld = false ∧
    (modbus_dev_exit (modbus_dev_init (allOkEnv e1 e2 e3 e4 n)).2.1).1.nodeHeld = false :=
  fun _ _ _ _ _ => ⟨rfl, rfl, rfl, rfl, rfl, rfl, rfl⟩

/-- C3 counterexample: on the fully uninitialized state (nothing held), exit
still issues `device_destroy`, `class_unregister`, `class_destroy` and
`unregister_chrdev_region` — release calls on absent resources — so not every
release step is guarded per-resource. -/
theorem exit_unguarded_releases_counterexample :
    initialSys.nodeHeld = false ∧ initialSys.classHeld = false ∧
    initialSys.regionHeld = false ∧
    KCall.device_destroy ∈ (modbus_dev_exit initialSys).2 ∧
    KCall.class_unregister ∈ (modbus_dev_exit initialSys).2 ∧
    KCall.class_destroy ∈ (modbus_dev_exit initialSys).2 ∧
    KCall.unregister_chrdev_region ∈ (modbus_dev_exit initialSys).2 := by
  decide

/-- C3 amended: only cdev deletion is guarded (skipped exactly when the
`my_dev` pointer is NULL); device destruction, class unregister, class
destroy and region unregistration are issued unconditionally on every run of
exit, and `my_dev` is never reset, so a second exit repeats `cdev_del`. -/
theorem exit_guards_only_cdev_del : ∀ s : Sys,
    (modbus_dev_exit s).2 =
      (if s.my_dev then [KCall.cdev_del] else []) ++
      [KCall.device_destroy, KCall.class_unregister, KCall.class_destroy,
       KCall.unregister_chrdev_region] ∧
    (modbus_dev_exit s).1.my_dev = s.my_dev ∧
    (modbus_dev_exit s).1.nodeHeld = false ∧
    (modbus_dev_exit s).1.classHeld = false ∧
    (modbus_dev_exit s).1.regionHeld = false := by
  intro s
  rcases s with ⟨r1, r2, r3, c1, c2, cl, nh, nn, md, dn⟩
  cases md <;> exact ⟨rfl, rfl, rfl, rfl, rfl⟩

/-- C8: initialization acquires in order the device identity (region of
exactly one minor number), the dispatch registration, the class, then the
node named `DEVICE_NAME ++ minor`; and in every run, if `device_create` is
issued at all then `cdev_add` was issued strictly earlier in the trace, so
the node never becomes visible before dispatch registration succeeded. -/
theorem init_acquisition_order_and_node_visibility :
    (∀ (e1 e2 e3 e4 : Int) (n : Nat),
      (modbus_dev_init (allOkEnv e1 e2 e3 e4 n)).1 = 0 ∧
      (modbus_dev_init (allOkEnv e1 e2 e3 e4 n)).2.2 =
        [KCall.alloc_chrdev_region, KCall.cdev_alloc, KCall.cdev_init,
         KCall.cdev_add, KCall.class_create, KCall.device_create] ∧
      (modbus_dev_init (allOkEnv e1 e2 e3 e4 n)).2.1.regionCount = 1 ∧
      (modbus_dev_init (allOkEnv e1 e2 e3 e4 n)).2.1.nodeName =
        some (DEVICE_NAME ++ toString (MINOR n))) ∧
    (∀ env : Env, KCall.device_create ∈ (modbus_dev_init env).2.2 →
      KCall.cdev_add ∈ (modbus_dev_init env).2.2 ∧
      callIndex KCall.cdev_add (modbus_dev_init env).2.2 <
        callIndex KCall.device_create (modbus_dev_init env).2.2) := by
  constructor
  · exact fun _ _ _ _ _ => ⟨rfl, rfl, rfl, rfl⟩
  · intro env
    rcases env with ⟨a, b, c, d, e, e1, e2, e3, e4, n⟩
    cases a <;> cases b <;> cases c <;> cases d <;> cases e <;>
      simp [modbus_dev_init, callIndex]

/-- Witness for C8: in the all-success run, `device_create` is in the trace
and `cdev_add` occurs strictly before it. -/
theorem init_acquisition_order_witness :
    KCall.cdev_add ∈ (modbus_dev_init (allOkEnv 0 0 0 0 0)).2.2 ∧
    callIndex KCall.cdev_add (modbus_dev_init (allOkEnv 0 0 0 0 0)).2.2 <
      callIndex KCall.device_create (modbus_dev_init (allOkEnv 0 0 0 0 0)).2.2 :=
  init_acquisition_order_and_node_visibility.2 (allOkEnv 0 0 0 0 0) (by decide)
